import Mathlib

/-!
Verification of the kwidgetsaddons specification against the source.

Two parts:

1. `LineEditCatchReturnKey` — the return-key capture event filter, embedded
   directly from `src/klineediteventhandler.cpp`.

2. `PasswordPromptController` — the password-dialog validation and
   known-logins state machine. The repository snapshot contains only the
   header `src/kpassworddialog.h` (declarations and documentation); the
   implementation file `kpassworddialog.cpp` is absent, so the controller is
   modelled from the specification's own description (spec.md sections 3-4,
   7-8), with each definition's doc comment marked `Modelled from the spec:`.
-/

/-! ## Part 1: return-key capture filter (from klineediteventhandler.cpp) -/

namespace Qt

/-- Qt key code for the main Return key (Qt::Key_Return). -/
def Key_Return : Nat := 0x01000004

/-- Qt key code for the keypad Enter key (Qt::Key_Enter). -/
def Key_Enter : Nat := 0x01000005

/-- Qt::NoButton, numerically 0 — the value the source compares the
modifier set against for "no modifier". -/
def NoButton : Nat := 0

/-- Qt::KeypadModifier — set when the keystroke comes from the numeric
keypad. -/
def KeypadModifier : Nat := 0x20000000

/-- Qt::ShiftModifier, used as a concrete "other modifier" value. -/
def ShiftModifier : Nat := 0x02000000

end Qt

/-- An event delivered to the filter: either a key press carrying a key code
and a modifier bitmask, or any other event (tagged so that distinct
non-key-press events exist). -/
inductive QEvent where
  | keyPress (key : Nat) (modifiers : Nat)
  | other (tag : Nat)
deriving DecidableEq, Repr

/-- Outcome of one `eventFilter` call: `consumed` is the boolean the filter
returns (`true` means the event is filtered out and never delivered to the
line edit), `emitted` counts the `returnPressed` signal emissions made during
the call. -/
structure FilterOutcome where
  consumed : Bool
  emitted : Nat
deriving DecidableEq, Repr

/-- Base-class behaviour `QObject::eventFilter`: does nothing and returns
`false`, letting the event pass through to the watched object. -/
def qobjectEventFilter (_objIsLineEdit : Bool) (_event : QEvent) : FilterOutcome :=
  { consumed := false, emitted := 0 }

namespace LineEditCatchReturnKey

/-- `LineEditCatchReturnKey::eventFilter` from klineediteventhandler.cpp
lines 33-48. `objIsLineEdit` embeds the `obj == m_lineEdit` pointer test.
For a key press of Return or Enter on the line edit, `stopEvent` holds when
the modifier set equals `Qt::NoButton` or `Qt::KeypadModifier`; in that case
`returnPressed` is emitted once; in every Return/Enter case the filter
returns `true`. All other events fall through to `QObject::eventFilter`. -/
def eventFilter (objIsLineEdit : Bool) (event : QEvent) : FilterOutcome :=
  if objIsLineEdit then
    match event with
    | .keyPress key modifiers =>
      if key == Qt.Key_Return || key == Qt.Key_Enter then
        let stopEvent : Bool := modifiers == Qt.NoButton || modifiers == Qt.KeypadModifier
        { consumed := true, emitted := if stopEvent then 1 else 0 }
      else
        qobjectEventFilter objIsLineEdit event
    | .other _ =>
      qobjectEventFilter objIsLineEdit event
  else
    qobjectEventFilter objIsLineEdit event

end LineEditCatchReturnKey

/-! ## Part 2: PasswordPromptController

Modelled from the spec: the implementation file `kpassworddialog.cpp` is not
in the repository snapshot — only the declarations and documentation of
`KPasswordDialog` in `src/kpassworddialog.h` are — so the controller state
machine below follows spec.md sections 3, 4.1, 7 and 8 (consistent with the
header's documentation). -/

/-- Modelled from the spec: the immutable per-session option set passed to
`configure` (the `KPasswordDialogFlags` of the missing constructor
`KPasswordDialog::KPasswordDialog`). -/
structure Flags where
  showKeepPassword : Bool
  showUsernameLine : Bool
  usernameReadOnly : Bool
  showAnonymousLoginCheckBox : Bool
  showDomainLine : Bool
  domainReadOnly : Bool
deriving DecidableEq, Repr

/-- Modelled from the spec: `errorState` enumeration
`{None, UsernameError, PasswordError, FatalError, DomainError}` (the header's
`KPasswordDialog::ErrorType` has `UnknownError` in place of `None`). -/
inductive ErrorState where
  | noError
  | usernameError
  | passwordError
  | fatalError
  | domainError
deriving DecidableEq, Repr

/-- Modelled from the spec: the `CredentialPrompt` state owned by the
controller (the state behind the missing `KPasswordDialogPrivate`).
`presetNonEmpty` records whether the current caller-preset password (the
last `setPassword` argument) is non-empty, which is what disables the
reveal capability. -/
structure CredentialPrompt where
  flags : Flags
  username : String
  domain : String
  password : String
  anonymous : Bool
  keep : Bool
  knownLogins : List (String × String)
  errorState : ErrorState
  revealAvailable : Bool
  presetNonEmpty : Bool
deriving DecidableEq, Repr

/-- Modelled from the spec: the freshly configured session state — fields
empty or false, `errorState = None`, `revealAvailable` defaults to true. -/
def initialPrompt (flags : Flags) : CredentialPrompt :=
  { flags := flags
    username := ""
    domain := ""
    password := ""
    anonymous := false
    keep := false
    knownLogins := []
    errorState := .noError
    revealAvailable := true
    presetNonEmpty := false }

/-- Modelled from the spec: `setUsername` (missing
`KPasswordDialog::setUsername`) — a silent no-op unless the corresponding
option `ShowUsernameLine` is enabled. -/
def setUsername (s : String) (st : CredentialPrompt) : CredentialPrompt :=
  if st.flags.showUsernameLine then { st with username := s } else st

/-- Modelled from the spec: `setDomain` (missing
`KPasswordDialog::setDomain`) — a silent no-op unless the corresponding
option `ShowDomainLine` is enabled. -/
def setDomain (s : String) (st : CredentialPrompt) : CredentialPrompt :=
  if st.flags.showDomainLine then { st with domain := s } else st

/-- Modelled from the spec: `setAnonymous` (missing
`KPasswordDialog::setAnonymousMode`) — a silent no-op unless the
corresponding option `ShowAnonymousLoginCheckBox` is enabled. -/
def setAnonymous (b : Bool) (st : CredentialPrompt) : CredentialPrompt :=
  if st.flags.showAnonymousLoginCheckBox then { st with anonymous := b } else st

/-- Modelled from the spec: `setKeep` (missing
`KPasswordDialog::setKeepPassword`) — a silent no-op unless the
corresponding option `ShowKeepPassword` is enabled ("has only effect if
ShowKeepCheckBox is set in the constructor"). -/
def setKeep (b : Bool) (st : CredentialPrompt) : CredentialPrompt :=
  if st.flags.showKeepPassword then { st with keep := b } else st

/-- Modelled from the spec: `setPassword` (missing
`KPasswordDialog::setPassword`) — presets the password; no option in the
configure set corresponds to the password line, which is always shown.
"If the password is not empty, the ability to show the password will not be
available": a non-empty preset forces `revealAvailable` to false. -/
def setPassword (p : String) (st : CredentialPrompt) : CredentialPrompt :=
  if p = "" then
    { st with password := p, presetNonEmpty := false }
  else
    { st with password := p, presetNonEmpty := true, revealAvailable := false }

/-- Modelled from the spec: `setRevealPasswordAvailable` (missing
`KPasswordDialog::setRevealPasswordAvailable`) — sets the reveal capability,
except that it stays forced to false whenever a non-empty preset password
exists. -/
def setRevealPasswordAvailable (r : Bool) (st : CredentialPrompt) : CredentialPrompt :=
  { st with revealAvailable := r && !st.presetNonEmpty }

/-- Result of `presetKnownLogins`: either the updated session state or the
eager `ConfigurationError`. -/
inductive PresetResult where
  | ok (st : CredentialPrompt)
  | configurationError
deriving DecidableEq, Repr

/-- Modelled from the spec: `presetKnownLogins` (missing
`KPasswordDialog::setKnownLogins`) — "requires `ShowUsernameLine` enabled
and `UsernameReadOnly` disabled; fails with `ConfigurationError`
otherwise", detected eagerly at this call. On success it only installs the
login choices. -/
def presetKnownLogins (logins : List (String × String)) (st : CredentialPrompt) :
    PresetResult :=
  if st.flags.showUsernameLine && !st.flags.usernameReadOnly then
    .ok { st with knownLogins := logins }
  else
    .configurationError

/-- Modelled from the spec: selecting one of the preset known logins —
"sets both `username` and `password` atomically and must not itself trigger
validation". A name not among the presets selects nothing. -/
def selectKnownLogin (u : String) (st : CredentialPrompt) : CredentialPrompt :=
  match st.knownLogins.lookup u with
  | some p => { st with username := u, password := p }
  | none => st

/-- Modelled from the spec: `showError` (missing
`KPasswordDialog::showErrorMessage`) — records `errorState = kind`; the
message itself is presentation only. Per the state machine of spec section
4.1, the `Terminal` state reached through `FatalError` "has no outgoing
transitions except session teardown" (`FatalError` is sticky), so a
recorded `FatalError` is never overwritten. -/
def showError (kind : ErrorState) (st : CredentialPrompt) : CredentialPrompt :=
  if st.errorState = .fatalError then st else { st with errorState := kind }

/-- The value an `attemptAccept` call reports back: `accepted` carries the
emitted `(username?, password, keep)` payload, `rejected` reports failure. -/
inductive AcceptResult where
  | accepted (username : Option String) (password : String) (keep : Bool)
  | rejected
deriving DecidableEq, Repr

/-- Everything observable about one `attemptAccept` call: the reported
result, whether the overridable `checkPassword` hook was invoked during the
call, and the state after the call. -/
structure AcceptOutcome where
  result : AcceptResult
  hookInvoked : Bool
  state : CredentialPrompt
deriving DecidableEq, Repr

/-- Modelled from the spec: `attemptAccept` (missing
`KPasswordDialog::accept`). `hookResult` is the value the overridable
`checkPassword` hook would return if invoked (default subclass: true).
1. `errorState = FatalError` rejects immediately without the hook;
2. `anonymous` skips validation;
3. otherwise the hook runs, and false sets `errorState = PasswordError`
   and rejects with all field values unchanged;
4. success emits `(username?, password, keep)` with username included only
   under `ShowUsernameLine` and keep forced false without
   `ShowKeepPassword`; the last validation failure is cleared. -/
def attemptAccept (hookResult : Bool) (st : CredentialPrompt) : AcceptOutcome :=
  if st.errorState = .fatalError then
    { result := .rejected, hookInvoked := false, state := st }
  else if st.anonymous then
    { result := .accepted
        (if st.flags.showUsernameLine then some st.username else none)
        st.password (st.keep && st.flags.showKeepPassword)
      hookInvoked := false
      state := { st with errorState := .noError } }
  else if hookResult then
    { result := .accepted
        (if st.flags.showUsernameLine then some st.username else none)
        st.password (st.keep && st.flags.showKeepPassword)
      hookInvoked := true
      state := { st with errorState := .noError } }
  else
    { result := .rejected
      hookInvoked := true
      state := { st with errorState := .passwordError } }

/-- One externally driven operation on the controller. `attemptAccept`
carries the answer its `checkPassword` hook would give, so that arbitrary
subclass behaviour is quantified over. -/
inductive Op where
  | setUsername (s : String)
  | setDomain (s : String)
  | setPassword (p : String)
  | setAnonymous (b : Bool)
  | setKeep (b : Bool)
  | setRevealPasswordAvailable (r : Bool)
  | presetKnownLogins (logins : List (String × String))
  | selectKnownLogin (u : String)
  | showError (kind : ErrorState)
  | attemptAccept (hookResult : Bool)
deriving DecidableEq, Repr

/-- Apply one operation: the state after it, paired with whether the
`checkPassword` hook was invoked during it. A failed `presetKnownLogins`
leaves the state untouched (the preset does not apply). -/
def applyOp (st : CredentialPrompt) : Op → CredentialPrompt × Bool
  | .setUsername s => (setUsername s st, false)
  | .setDomain s => (setDomain s st, false)
  | .setPassword p => (setPassword p st, false)
  | .setAnonymous b => (setAnonymous b st, false)
  | .setKeep b => (setKeep b st, false)
  | .setRevealPasswordAvailable r => (setRevealPasswordAvailable r st, false)
  | .presetKnownLogins logins =>
    (match presetKnownLogins logins st with
      | .ok st' => (st', false)
      | .configurationError => (st, false))
  | .selectKnownLogin u => (selectKnownLogin u st, false)
  | .showError kind => (showError kind st, false)
  | .attemptAccept hookResult =>
    ((attemptAccept hookResult st).state, (attemptAccept hookResult st).hookInvoked)

/-- Run a sequence of operations from a starting state. -/
def applyOps (st : CredentialPrompt) : List Op → CredentialPrompt
  | [] => st
  | op :: ops => applyOps (applyOp st op).1 ops

/-! ## Theorems -/

/-- Claim C10: for every Return or Enter key-press event whose modifier set
is neither empty nor exactly the keypad modifier, the return-key capture
filter consumes the event (it is not delivered to the text input) and emits
no commit signal. -/
theorem returnKey_other_modifiers_consumed_silently
    (key modifiers : Nat)
    (hkey : key = Qt.Key_Return ∨ key = Qt.Key_Enter)
    (hm1 : modifiers ≠ Qt.NoButton) (hm2 : modifiers ≠ Qt.KeypadModifier) :
    LineEditCatchReturnKey.eventFilter true (.keyPress key modifiers) =
      { consumed := true, emitted := 0 } := by
  have hb : (key == Qt.Key_Return || key == Qt.Key_Enter) = true := by
    rcases hkey with h | h <;> simp [h]
  have hs : (modifiers == Qt.NoButton || modifiers == Qt.KeypadModifier) = false := by
    simp [hm1, hm2]
  simp [LineEditCatchReturnKey.eventFilter, hb, hs]

/-- Witness for C10 at the concrete input Shift+Return: the event is
consumed and no commit signal is emitted. -/
theorem returnKey_other_modifiers_witness :
    LineEditCatchReturnKey.eventFilter true
        (.keyPress Qt.Key_Return Qt.ShiftModifier) =
      { consumed := true, emitted := 0 } :=
  returnKey_other_modifiers_consumed_silently Qt.Key_Return Qt.ShiftModifier
    (Or.inl rfl) (by decide) (by decide)

/-- Claim C6 as stated is false: it is not the case that every event
delivered to the watched input is either a commit keystroke with an allowed
modifier set or passes through to the input. Shift+Return is neither a
commit keystroke with allowed modifiers nor passed through: the filter
consumes it. -/
theorem returnKey_passthrough_counterexample :
    ¬ (∀ ev : QEvent,
        (∃ key modifiers, ev = QEvent.keyPress key modifiers ∧
            (key = Qt.Key_Return ∨ key = Qt.Key_Enter) ∧
            (modifiers = Qt.NoButton ∨ modifiers = Qt.KeypadModifier)) ∨
        (LineEditCatchReturnKey.eventFilter true ev).consumed = false) := by
  intro h
  rcases h (QEvent.keyPress Qt.Key_Return Qt.ShiftModifier) with h1 | h2
  · obtain ⟨k, m, heq, _, hmod⟩ := h1
    cases heq
    rcases hmod with h | h <;> exact absurd h (by decide)
  · exact absurd h2 (by decide)

/-- Claim C6 (amended): a Return/Enter key press with no modifier or only
the keypad modifier is consumed and forwarded as exactly one commit signal;
a Return/Enter key press with any other modifier set is consumed without a
commit signal; every other event passes through unmodified, with no
signal. -/
theorem returnKey_filter_behaviour :
    (∀ key modifiers : Nat, (key = Qt.Key_Return ∨ key = Qt.Key_Enter) →
      ((modifiers = Qt.NoButton ∨ modifiers = Qt.KeypadModifier) →
        LineEditCatchReturnKey.eventFilter true (.keyPress key modifiers) =
          { consumed := true, emitted := 1 })
      ∧ (modifiers ≠ Qt.NoButton → modifiers ≠ Qt.KeypadModifier →
        LineEditCatchReturnKey.eventFilter true (.keyPress key modifiers) =
          { consumed := true, emitted := 0 }))
    ∧ (∀ key modifiers : Nat, key ≠ Qt.Key_Return → key ≠ Qt.Key_Enter →
        LineEditCatchReturnKey.eventFilter true (.keyPress key modifiers) =
          { consumed := false, emitted := 0 })
    ∧ (∀ tag : Nat,
        LineEditCatchReturnKey.eventFilter true (.other tag) =
          { consumed := false, emitted := 0 }) := by
  refine ⟨?_, ?_, ?_⟩
  · intro key modifiers hkey
    have hb : (key == Qt.Key_Return || key == Qt.Key_Enter) = true := by
      rcases hkey with h | h <;> simp [h]
    constructor
    · intro hmod
      have hs : (modifiers == Qt.NoButton || modifiers == Qt.KeypadModifier) = true := by
        rcases hmod with h | h <;> simp [h]
      simp [LineEditCatchReturnKey.eventFilter, hb, hs]
    · intro hm1 hm2
      have hs : (modifiers == Qt.NoButton || modifiers == Qt.KeypadModifier) = false := by
        simp [hm1, hm2]
      simp [LineEditCatchReturnKey.eventFilter, hb, hs]
  · intro key modifiers hk1 hk2
    have hb : (key == Qt.Key_Return || key == Qt.Key_Enter) = false := by
      simp [hk1, hk2]
    simp [LineEditCatchReturnKey.eventFilter, hb, qobjectEventFilter]
  · intro tag
    simp [LineEditCatchReturnKey.eventFilter, qobjectEventFilter]

/-- Witness for the amended C6 at the concrete input plain Return: consumed
and exactly one commit signal. -/
theorem returnKey_filter_behaviour_witness :
    LineEditCatchReturnKey.eventFilter true
        (.keyPress Qt.Key_Return Qt.NoButton) =
      { consumed := true, emitted := 1 } :=
  (returnKey_filter_behaviour.1 Qt.Key_Return Qt.NoButton (Or.inl rfl)).1 (Or.inl rfl)

/-- A concrete configuration with no option enabled. -/
def flagsNone : Flags :=
  { showKeepPassword := false
    showUsernameLine := false
    usernameReadOnly := false
    showAnonymousLoginCheckBox := false
    showDomainLine := false
    domainReadOnly := false }

/-- A concrete configuration with only `ShowUsernameLine` enabled. -/
def flagsUser : Flags :=
  { flagsNone with showUsernameLine := true }

/-- A concrete configuration with only `ShowAnonymousLoginCheckBox`
enabled. -/
def flagsAnon : Flags :=
  { flagsNone with showAnonymousLoginCheckBox := true }

/-- A concrete session state in which the caller has recorded a fatal
error. -/
def fatalState : CredentialPrompt :=
  showError .fatalError (initialPrompt flagsNone)

/-- Claim C1: in a session configured without `ShowKeepPassword`, every
successful `attemptAccept` reports `keep = false`, and `setKeep` is a
no-op. -/
theorem keep_false_without_showKeepPassword :
    (∀ (st : CredentialPrompt) (hookResult : Bool) (u : Option String)
        (p : String) (k : Bool),
      st.flags.showKeepPassword = false →
      (attemptAccept hookResult st).result = .accepted u p k → k = false)
    ∧ (∀ (st : CredentialPrompt) (b : Bool),
      st.flags.showKeepPassword = false → setKeep b st = st) := by
  constructor
  · intro st hookResult u p k hflag hres
    unfold attemptAccept at hres
    split at hres
    · exact absurd hres (by simp)
    · split at hres
      · simp only [hflag, Bool.and_false, AcceptResult.accepted.injEq] at hres
        exact hres.2.2.symm
      · split at hres
        · simp only [hflag, Bool.and_false, AcceptResult.accepted.injEq] at hres
          exact hres.2.2.symm
        · exact absurd hres (by simp)
  · intro st b hflag
    simp [setKeep, hflag]

/-- Witness for C1: in the flagless configuration, a successful accept
reports `keep = false` and `setKeep true` changes nothing. -/
theorem keep_false_witness :
    ((initialPrompt flagsNone).flags.showKeepPassword = false
      ∧ (attemptAccept true (initialPrompt flagsNone)).result =
          .accepted none "" false)
    ∧ (false : Bool) = false
    ∧ setKeep true (initialPrompt flagsNone) = initialPrompt flagsNone :=
  ⟨⟨by decide, by decide⟩,
    keep_false_without_showKeepPassword.1 (initialPrompt flagsNone) true none ""
      false (by decide) (by decide),
    keep_false_without_showKeepPassword.2 (initialPrompt flagsNone) true (by decide)⟩

/-- Preservation of a recorded fatal error by every single operation. -/
theorem fatal_preserved_step (st : CredentialPrompt) (op : Op)
    (h : st.errorState = .fatalError) :
    ((applyOp st op).1).errorState = .fatalError := by
  cases op with
  | setUsername s => simp only [applyOp, setUsername]; split <;> simpa
  | setDomain s => simp only [applyOp, setDomain]; split <;> simpa
  | setPassword p => simp only [applyOp, setPassword]; split <;> simpa
  | setAnonymous b => simp only [applyOp, setAnonymous]; split <;> simpa
  | setKeep b => simp only [applyOp, setKeep]; split <;> simpa
  | setRevealPasswordAvailable r =>
    simpa [applyOp, setRevealPasswordAvailable]
  | presetKnownLogins logins =>
    simp only [applyOp, presetKnownLogins]
    split
    · rename_i st' heq
      split at heq
      · cases heq; simpa
      · cases heq
    · simpa
  | selectKnownLogin u =>
    simp only [applyOp, selectKnownLogin]
    split <;> simpa
  | showError kind =>
    simp [applyOp, showError, h]
  | attemptAccept hookResult =>
    simp [applyOp, attemptAccept, h]

/-- Claim C2: once `errorState = FatalError`, `attemptAccept` rejects
immediately without invoking the `checkPassword` hook and changes nothing,
and no sequence of later operations ever clears the fatal state. -/
theorem fatalError_sticky :
    (∀ (st : CredentialPrompt) (hookResult : Bool),
      st.errorState = .fatalError →
      attemptAccept hookResult st =
        { result := .rejected, hookInvoked := false, state := st })
    ∧ (∀ (st : CredentialPrompt) (ops : List Op),
      st.errorState = .fatalError →
      (applyOps st ops).errorState = .fatalError) := by
  constructor
  · intro st hookResult h
    simp [attemptAccept, h]
  · intro st ops
    induction ops generalizing st with
    | nil => intro h; simpa [applyOps] using h
    | cons op ops ih =>
      intro h
      exact ih _ (fatal_preserved_step st op h)

/-- Witness for C2: from a concretely recorded fatal error, an accept
attempt with a succeeding hook still rejects without the hook, and a
sequence of later operations leaves the fatal state in place. -/
theorem fatalError_sticky_witness :
    (fatalState.errorState = .fatalError
      ∧ attemptAccept true fatalState =
          { result := .rejected, hookInvoked := false, state := fatalState })
    ∧ (applyOps fatalState
        [.attemptAccept true, .showError .passwordError, .setPassword "x",
          .attemptAccept true]).errorState = .fatalError :=
  ⟨⟨by decide, fatalError_sticky.1 fatalState true (by decide)⟩,
    fatalError_sticky.2 fatalState
      [.attemptAccept true, .showError .passwordError, .setPassword "x",
        .attemptAccept true] (by decide)⟩

/-- Claim C3: `presetKnownLogins` fails with `ConfigurationError` exactly
when `ShowUsernameLine` is disabled or `UsernameReadOnly` is enabled; on
success it only installs the login choices, leaving `errorState` (and every
other field) unchanged. The error is the call's own result, so the invalid
combination is detected eagerly at the preset call. -/
theorem presetKnownLogins_configuration :
    ∀ (st : CredentialPrompt) (logins : List (String × String)),
      ((st.flags.showUsernameLine = false ∨ st.flags.usernameReadOnly = true) →
        presetKnownLogins logins st = .configurationError)
      ∧ (st.flags.showUsernameLine = true → st.flags.usernameReadOnly = false →
        presetKnownLogins logins st = .ok { st with knownLogins := logins })
      ∧ (∀ st', presetKnownLogins logins st = .ok st' →
          st'.errorState = st.errorState) := by
  intro st logins
  refine ⟨?_, ?_, ?_⟩
  · intro h
    have hc : (st.flags.showUsernameLine && !st.flags.usernameReadOnly) = false := by
      rcases h with h | h <;> simp [h]
    simp [presetKnownLogins, hc]
  · intro h1 h2
    simp [presetKnownLogins, h1, h2]
  · intro st' h
    unfold presetKnownLogins at h
    split at h
    · cases h; rfl
    · cases h

/-- Witness for C3: with only `ShowUsernameLine` set the preset succeeds
and keeps `errorState`, and with no flags it fails with the configuration
error. -/
theorem presetKnownLogins_configuration_witness :
    presetKnownLogins [("alice", "pw1"), ("bob", "pw2")] (initialPrompt flagsUser) =
      .ok { initialPrompt flagsUser with
              knownLogins := [("alice", "pw1"), ("bob", "pw2")] }
    ∧ presetKnownLogins [("alice", "pw1")] (initialPrompt flagsNone) =
        .configurationError :=
  ⟨(presetKnownLogins_configuration (initialPrompt flagsUser)
      [("alice", "pw1"), ("bob", "pw2")]).2.1 (by decide) (by decide),
    (presetKnownLogins_configuration (initialPrompt flagsNone)
      [("alice", "pw1")]).1 (Or.inl (by decide))⟩

/-- Claim C4: with `anonymous = true` and no recorded fatal error,
`attemptAccept` never invokes the `checkPassword` hook and always returns
`Accepted` (with the configured payload). -/
theorem anonymous_accepts_without_hook :
    ∀ (st : CredentialPrompt) (hookResult : Bool),
      st.anonymous = true → st.errorState ≠ .fatalError →
      (attemptAccept hookResult st).hookInvoked = false ∧
      (attemptAccept hookResult st).result =
        .accepted (if st.flags.showUsernameLine then some st.username else none)
          st.password (st.keep && st.flags.showKeepPassword) := by
  intro st hookResult hanon hfatal
  simp [attemptAccept, hanon, hfatal]

/-- Witness for C4: a concrete anonymous session accepts without invoking
the hook even when the hook would say false. -/
theorem anonymous_accepts_witness :
    ((setAnonymous true (initialPrompt flagsAnon)).anonymous = true
      ∧ (setAnonymous true (initialPrompt flagsAnon)).errorState ≠ .fatalError)
    ∧ (attemptAccept false (setAnonymous true (initialPrompt flagsAnon))).hookInvoked
        = false
    ∧ (attemptAccept false (setAnonymous true (initialPrompt flagsAnon))).result =
        .accepted none "" false := by
  refine ⟨⟨by decide, by decide⟩, ?_⟩
  simpa using
    anonymous_accepts_without_hook (setAnonymous true (initialPrompt flagsAnon))
      false (by decide) (by decide)

/-- Preservation of the reveal invariant — a non-empty preset password
implies the reveal capability is off — by every single operation. -/
theorem reveal_invariant_step (st : CredentialPrompt) (op : Op)
    (h : st.presetNonEmpty = true → st.revealAvailable = false) :
    (applyOp st op).1.presetNonEmpty = true →
      (applyOp st op).1.revealAvailable = false := by
  cases op with
  | setUsername s => simp only [applyOp, setUsername]; split <;> simpa
  | setDomain s => simp only [applyOp, setDomain]; split <;> simpa
  | setPassword p =>
    simp only [applyOp, setPassword]
    split <;> simp
  | setAnonymous b => simp only [applyOp, setAnonymous]; split <;> simpa
  | setKeep b => simp only [applyOp, setKeep]; split <;> simpa
  | setRevealPasswordAvailable r =>
    intro hp
    simp only [applyOp, setRevealPasswordAvailable] at hp ⊢
    simp [hp]
  | presetKnownLogins logins =>
    simp only [applyOp, presetKnownLogins]
    split
    · rename_i st' heq
      split at heq
      · cases heq; simpa
      · cases heq
    · simpa
  | selectKnownLogin u =>
    simp only [applyOp, selectKnownLogin]
    split <;> simpa
  | showError kind =>
    simp only [applyOp, showError]
    split <;> simpa
  | attemptAccept hookResult =>
    simp only [applyOp, attemptAccept]
    split
    · simpa
    · split
      · simpa
      · split <;> simpa

/-- Claim C5: `revealAvailable` defaults to true; a non-empty password
preset via `setPassword` forces it to false; and the invariant "a non-empty
preset password implies not revealable" holds after every sequence of
operations from the initial state. -/
theorem reveal_invariant :
    (∀ flags : Flags, (initialPrompt flags).revealAvailable = true)
    ∧ (∀ (st : CredentialPrompt) (p : String), p ≠ "" →
        (setPassword p st).revealAvailable = false)
    ∧ (∀ (flags : Flags) (ops : List Op),
        (applyOps (initialPrompt flags) ops).presetNonEmpty = true →
        (applyOps (initialPrompt flags) ops).revealAvailable = false) := by
  refine ⟨fun _ => rfl, ?_, ?_⟩
  · intro st p hp
    simp [setPassword, hp]
  · intro flags ops
    have general : ∀ (st : CredentialPrompt) (ops : List Op),
        (st.presetNonEmpty = true → st.revealAvailable = false) →
        (applyOps st ops).presetNonEmpty = true →
        (applyOps st ops).revealAvailable = false := by
      intro st ops
      induction ops generalizing st with
      | nil => intro h; simpa [applyOps] using h
      | cons op ops ih =>
        intro h
        exact ih _ (reveal_invariant_step st op h)
    exact general (initialPrompt flags) ops (by intro h; cases h)

/-- Witness for C5: presetting the non-empty password "x" in a fresh
flagless session marks the preset non-empty and turns the reveal capability
off. -/
theorem reveal_invariant_witness :
    (setPassword "x" (initialPrompt flagsNone)).revealAvailable = false
    ∧ (applyOps (initialPrompt flagsNone) [.setPassword "x"]).presetNonEmpty = true
    ∧ (applyOps (initialPrompt flagsNone) [.setPassword "x"]).revealAvailable
        = false :=
  ⟨reveal_invariant.2.1 (initialPrompt flagsNone) "x" (by decide),
    by decide,
    reveal_invariant.2.2 flagsNone [.setPassword "x"] (by decide)⟩

/-- Claim C7: when the `checkPassword` hook returns false (outside the
anonymous and fatal cases), `attemptAccept` rejects with
`errorState = PasswordError` and every field value unchanged, and a later
`attemptAccept` whose hook succeeds accepts with exactly those preserved
values. -/
theorem password_error_recoverable :
    ∀ st : CredentialPrompt,
      st.errorState ≠ .fatalError → st.anonymous = false →
      attemptAccept false st =
        { result := .rejected, hookInvoked := true,
          state := { st with errorState := .passwordError } }
      ∧ (attemptAccept true { st with errorState := .passwordError }).result =
          .accepted (if st.flags.showUsernameLine then some st.username else none)
            st.password (st.keep && st.flags.showKeepPassword) := by
  intro st hfatal hanon
  constructor
  · simp [attemptAccept, hfatal, hanon]
  · simp [attemptAccept, hanon]

/-- Witness for C7, the spec's retry scenario: no flags, password preset to
"x", hook failing once then succeeding — the first attempt rejects with
`PasswordError` and the password still "x", the second accepts with it. -/
theorem password_error_recoverable_witness :
    attemptAccept false (setPassword "x" (initialPrompt flagsNone)) =
      { result := .rejected, hookInvoked := true,
        state := { setPassword "x" (initialPrompt flagsNone) with
                    errorState := .passwordError } }
    ∧ (attemptAccept true
        { setPassword "x" (initialPrompt flagsNone) with
            errorState := .passwordError }).result =
        .accepted none "x" false := by
  simpa using
    password_error_recoverable (setPassword "x" (initialPrompt flagsNone))
      (by decide) (by decide)

/-- Claim C8: each option-guarded setter is a silent no-op when its
corresponding configuration option is disabled: `setUsername` without
`ShowUsernameLine`, `setDomain` without `ShowDomainLine`, `setAnonymous`
without `ShowAnonymousLoginCheckBox`, and `setKeep` without
`ShowKeepPassword`. (No option in the configure set corresponds to
`setPassword`: the password line is always shown.) -/
theorem setters_noop_without_option :
    ∀ st : CredentialPrompt,
      (∀ s, st.flags.showUsernameLine = false → setUsername s st = st)
      ∧ (∀ s, st.flags.showDomainLine = false → setDomain s st = st)
      ∧ (∀ b, st.flags.showAnonymousLoginCheckBox = false → setAnonymous b st = st)
      ∧ (∀ b, st.flags.showKeepPassword = false → setKeep b st = st) := by
  intro st
  refine ⟨?_, ?_, ?_, ?_⟩
  · intro s h; simp [setUsername, h]
  · intro s h; simp [setDomain, h]
  · intro b h; simp [setAnonymous, h]
  · intro b h; simp [setKeep, h]

/-- Witness for C8: in the flagless session each guarded setter leaves the
state exactly as it was. -/
theorem setters_noop_witness :
    setUsername "u" (initialPrompt flagsNone) = initialPrompt flagsNone
    ∧ setDomain "d" (initialPrompt flagsNone) = initialPrompt flagsNone
    ∧ setAnonymous true (initialPrompt flagsNone) = initialPrompt flagsNone
    ∧ setKeep true (initialPrompt flagsNone) = initialPrompt flagsNone :=
  ⟨(setters_noop_without_option (initialPrompt flagsNone)).1 "u" (by decide),
    (setters_noop_without_option (initialPrompt flagsNone)).2.1 "d" (by decide),
    (setters_noop_without_option (initialPrompt flagsNone)).2.2.1 true (by decide),
    (setters_noop_without_option (initialPrompt flagsNone)).2.2.2 true (by decide)⟩

/-- A concrete session with only `ShowUsernameLine` set and two preset
known logins installed. -/
def loginState : CredentialPrompt :=
  { initialPrompt flagsUser with
      knownLogins := [("alice", "pw1"), ("bob", "pw2")] }

/-- Claim C9: selecting a preset known login is one atomic state update
setting `username` and `password` to the chosen pair and nothing else — in
particular `errorState` is unchanged — and the selection operation never
invokes the `checkPassword` hook. -/
theorem selectKnownLogin_atomic :
    ∀ (st : CredentialPrompt) (u p : String),
      st.knownLogins.lookup u = some p →
      selectKnownLogin u st = { st with username := u, password := p }
      ∧ (selectKnownLogin u st).errorState = st.errorState
      ∧ (applyOp st (.selectKnownLogin u)).2 = false := by
  intro st u p h
  have hsel : selectKnownLogin u st = { st with username := u, password := p } := by
    simp [selectKnownLogin, h]
  exact ⟨hsel, by rw [hsel], rfl⟩

/-- Witness for C9, the spec's scenario: selecting "bob" among the preset
logins yields username "bob" and password "pw2" in one step, with
`errorState` untouched and no hook call. -/
theorem selectKnownLogin_atomic_witness :
    selectKnownLogin "bob" loginState =
      { loginState with username := "bob", password := "pw2" }
    ∧ (selectKnownLogin "bob" loginState).errorState = loginState.errorState
    ∧ (applyOp loginState (.selectKnownLogin "bob")).2 = false :=
  selectKnownLogin_atomic loginState "bob" "pw2" (by decide)
